import Mathlib

/-!
Verification development for the image-operations plugin
(`comfyui_image_ops.py`): format converters between the NHWC and NCHW
axis orders, image/mask loading and saving with validation, and the
resize-node family. Tensors are embedded shallowly: a rank-4 tensor is
its four dimension sizes plus a total value function on indices, and a
general tensor is a shape list plus a value function on index lists.
External collaborators (the PIL decoder, the torchvision resampling
kernels) are abstracted as explicit function parameters or modelled
from the specification, as marked in the doc comments.
-/

set_option autoImplicit false

namespace ComfyUIImageOps

/-- A rank-4 tensor: four dimension sizes and a total value function on
index quadruples. Values at out-of-range indices are unspecified junk,
harmless because axis permutation acts uniformly on all indices. -/
structure Tensor4 where
  d0 : ℕ
  d1 : ℕ
  d2 : ℕ
  d3 : ℕ
  val : ℕ → ℕ → ℕ → ℕ → ℚ

/-- The dimension quadruple of a rank-4 tensor (its `.shape`). -/
def Tensor4.dims (t : Tensor4) : ℕ × ℕ × ℕ × ℕ :=
  (t.d0, t.d1, t.d2, t.d3)

/-- `comfyui_to_native_torch`: `imgs.permute(0, 3, 1, 2)` — convert
images in NHWC format to NCHW format. New axis 1 is old axis 3, new
axis 2 is old axis 1, new axis 3 is old axis 2. -/
def comfyui_to_native_torch (imgs : Tensor4) : Tensor4 :=
  ⟨imgs.d0, imgs.d3, imgs.d1, imgs.d2, fun a b c d => imgs.val a c d b⟩

/-- `native_torch_to_comfyui`: `imgs.permute(0, 2, 3, 1)` — convert
images in NCHW format back to NHWC format. -/
def native_torch_to_comfyui (imgs : Tensor4) : Tensor4 :=
  ⟨imgs.d0, imgs.d2, imgs.d3, imgs.d1, fun a b c d => imgs.val a d b c⟩

/-- Python's built-in `round` on an exact value: round half to even
(banker's rounding). The Python source computes `round` on a float; we
model the quantity exactly as a rational. -/
def pythonRound (q : ℚ) : ℤ :=
  let f := ⌊q⌋
  let r := q - (f : ℚ)
  if r < 1 / 2 then f
  else if 1 / 2 < r then f + 1
  else if f % 2 = 0 then f else f + 1

/-- Modelled from the spec: the closed interpolation-kernel enumeration
`{bicubic, bilinear, nearest, nearest-exact}` exposed by every resize
node; the underlying `torchvision.transforms.InterpolationMode` class is
an external collaborator, modelled here with exactly the members the
nodes declare as choices. -/
inductive InterpolationMode where
  | BICUBIC
  | BILINEAR
  | NEAREST
  | NEAREST_EXACT
deriving DecidableEq, Repr

/-- `interpolation_mode.upper().replace(" ", "_")`: normalization of the
interpolation-mode string shared by all six resize nodes. The
replacement pattern is the single character `" "`, so the two Python
string passes are modelled as one character-wise pass. -/
def normalizeMode (s : String) : String :=
  (s.toList.map (fun c =>
    if c.toUpper = ' ' then '_' else c.toUpper)).asString

/-- `getattr(InterpolationMode, name)`: attribute lookup on the kernel
enumeration, `none` when the name is not a member (Python raises
`AttributeError`). -/
def interpolationModeLookup (s : String) : Option InterpolationMode :=
  if s = "BICUBIC" then some .BICUBIC
  else if s = "BILINEAR" then some .BILINEAR
  else if s = "NEAREST" then some .NEAREST
  else if s = "NEAREST_EXACT" then some .NEAREST_EXACT
  else none

/-- The type of the external resampling kernel, abstracted: given the
selected mode, the source NCHW tensor, the target height and width and
an output index, it produces the resampled value. The actual
interpolation arithmetic lives in torchvision and is out of scope. -/
def Resample : Type :=
  InterpolationMode → Tensor4 → ℕ → ℕ → ℕ → ℕ → ℕ → ℕ → ℚ

/-- Modelled from the spec: `torchvision.transforms.Resize((h, w), ...)`
applied to an NCHW tensor: the external resize primitive keeps the first
two dimensions and makes the spatial dimensions exactly the requested
`(height, width)` pair; pixel values come from the abstracted kernel. -/
def Resize (resample : Resample) (mode : InterpolationMode)
    (th tw : ℕ) (t : Tensor4) : Tensor4 :=
  ⟨t.d0, t.d1, th, tw, fun a b c d => resample mode t th tw a b c d⟩

/-- Modelled from the spec: `torchvision.transforms.Resize(size, ...)`
with a single integer — the shorter spatial side becomes `size`, the
other is scaled by the same ratio (torchvision floors the scaled side).
Used only by the by-shorter-side node. -/
def ResizeShorterSide (resample : Resample) (mode : InterpolationMode)
    (size : ℕ) (t : Tensor4) : Tensor4 :=
  if t.d2 ≤ t.d3 then
    Resize resample mode size (size * t.d3 / t.d2) t
  else
    Resize resample mode (size * t.d2 / t.d3) size t

/-- `JWImageResize.execute`: fixed resize. Normalizes and looks up the
interpolation mode (an unknown name is an `AttributeError`, modelled as
`.error`), then resizes to the explicit `(height, width)` through the
NHWC↔NCHW converter round-trip. -/
def JWImageResize_execute (resample : Resample) (image : Tensor4)
    (width height : ℕ) (interpolation_mode : String) :
    Except String Tensor4 :=
  match interpolationModeLookup (normalizeMode interpolation_mode) with
  | none => .error ("AttributeError: " ++ normalizeMode interpolation_mode)
  | some k =>
      .ok (native_torch_to_comfyui
        (Resize resample k height width (comfyui_to_native_torch image)))

/-- `JWImageResizeToSquare.execute`: resize to `(size, size)`. -/
def JWImageResizeToSquare_execute (resample : Resample) (image : Tensor4)
    (size : ℕ) (interpolation_mode : String) : Except String Tensor4 :=
  match interpolationModeLookup (normalizeMode interpolation_mode) with
  | none => .error ("AttributeError: " ++ normalizeMode interpolation_mode)
  | some k =>
      .ok (native_torch_to_comfyui
        (Resize resample k size size (comfyui_to_native_torch image)))

/-- `JWImageResizeByFactor.execute`: targets
`new_height = round(image.shape[1] * factor)`,
`new_width = round(image.shape[2] * factor)` and resizes to
`(new_height, new_width)`. The factor is a Python float, modelled as an
exact rational; the resulting Python ints are nonnegative for the
nonnegative factors the node admits, so `Int.toNat` is lossless there. -/
def JWImageResizeByFactor_execute (resample : Resample) (image : Tensor4)
    (factor : ℚ) (interpolation_mode : String) : Except String Tensor4 :=
  match interpolationModeLookup (normalizeMode interpolation_mode) with
  | none => .error ("AttributeError: " ++ normalizeMode interpolation_mode)
  | some k =>
      let new_height := pythonRound ((image.d1 : ℚ) * factor)
      let new_width := pythonRound ((image.d2 : ℚ) * factor)
      .ok (native_torch_to_comfyui
        (Resize resample k new_height.toNat new_width.toNat
          (comfyui_to_native_torch image)))

/-- `JWImageResizeByShorterSide.execute`: delegates to the primitive's
single-integer mode. -/
def JWImageResizeByShorterSide_execute (resample : Resample)
    (image : Tensor4) (size : ℕ) (interpolation_mode : String) :
    Except String Tensor4 :=
  match interpolationModeLookup (normalizeMode interpolation_mode) with
  | none => .error ("AttributeError: " ++ normalizeMode interpolation_mode)
  | some k =>
      .ok (native_torch_to_comfyui
        (ResizeShorterSide resample k size (comfyui_to_native_torch image)))

/-- `JWImageResizeByLongerSide.execute`: with `_, h, w, _ = image.shape`,
if `h >= w` then `new_h = size; new_w = round(w * new_h / h)` else
`new_w = size; new_h = round(h * new_w / w)`; the resizer is then built
with the pair `(new_w, new_h)` — width first, unlike the sibling nodes. -/
def JWImageResizeByLongerSide_execute (resample : Resample)
    (image : Tensor4) (size : ℕ) (interpolation_mode : String) :
    Except String Tensor4 :=
  match interpolationModeLookup (normalizeMode interpolation_mode) with
  | none => .error ("AttributeError: " ++ normalizeMode interpolation_mode)
  | some k =>
      let h := image.d1
      let w := image.d2
      let p : ℤ × ℤ :=
        if w ≤ h then ((size : ℤ), pythonRound ((w : ℚ) * (size : ℚ) / (h : ℚ)))
        else (pythonRound ((h : ℚ) * (size : ℚ) / (w : ℚ)), (size : ℤ))
      .ok (native_torch_to_comfyui
        (Resize resample k p.2.toNat p.1.toNat (comfyui_to_native_torch image)))

/-- A tensor of arbitrary rank: a shape list and a total value function
on index lists. Used for the code paths whose behavior depends on the
rank (`save_image`'s validation, the RGBA loader's mask, mask resize). -/
structure NTensor where
  shape : List ℕ
  val : List ℕ → ℚ

/-- `t[i]`: indexing the leading (batch) dimension drops it. -/
def NTensor.get (t : NTensor) (i : ℕ) : NTensor :=
  ⟨t.shape.tail, fun idx => t.val (i :: idx)⟩

/-- `t.unsqueeze(0)`: insert a leading dimension of size 1. -/
def NTensor.unsqueeze0 (t : NTensor) : NTensor :=
  ⟨1 :: t.shape, fun idx => t.val idx.tail⟩

/-- `img.permute(2, 0, 1)` on a rank-3 tensor: (H, W, C) → (C, H, W);
new index `[a, b, c]` reads old index `[b, c, a]`. -/
def tensorPermute201 (t : NTensor) : NTensor :=
  ⟨[t.shape.getD 2 0, t.shape.getD 0 0, t.shape.getD 1 0],
   fun idx => t.val [idx.getD 1 0, idx.getD 2 0, idx.getD 0 0]⟩

/-- `img.clamp(0, 1)` on a single value. -/
def clamp01 (q : ℚ) : ℚ := max 0 (min 1 q)

/-- The Python exceptions `save_image` can raise: `ValueError` from its
own validation, `IndexError` from `shape[0]` on an empty shape tuple. -/
inductive PyError where
  | valueError (msg : String)
  | indexError (msg : String)
deriving DecidableEq

/-- Whether a `save_image` outcome is a raised `ValueError`. -/
def isValueError {α : Type} : Except PyError α → Bool
  | .error (.valueError _) => true
  | _ => false

/-- A file written by `save_image`: destination path and the clamped,
permuted pixel data handed to the PNG encoder (the 8-bit encoding and
metadata text chunks are PIL's, out of scope). -/
structure SavedFile where
  path : String
  data : NTensor

/-- `save_image(img, path)`: rank check first — a non-rank-3 tensor
raises `ValueError` whose message interpolates `img.shape[0]` (on a
0-dimensional tensor that very interpolation raises `IndexError`
instead, before the `ValueError` exists); then `permute(2, 0, 1)`; then
the channel check on the permuted leading dimension; then clamp to
[0, 1] and write. Metadata embedding and the returned filename
dictionary do not affect validation or the written path and are not
modelled. -/
def save_image (img : NTensor) (path : String) : Except PyError SavedFile :=
  if img.shape.length = 3 then
    let permuted := tensorPermute201 img
    if permuted.shape.headD 0 = 3 then
      .ok ⟨path, ⟨permuted.shape, fun idx => clamp01 (permuted.val idx)⟩⟩
    else
      .error (.valueError ("image must have 3 channels, but got "
        ++ toString (permuted.shape.headD 0) ++ " channels"))
  else
    match img.shape with
    | [] => .error (.indexError "tuple index out of range")
    | s0 :: _ =>
        .error (.valueError ("can\x27t take image batch as input, got "
          ++ toString s0 ++ " images"))

/-- The index of the last occurrence of `c`, if any. -/
def lastIdxOfChar (c : Char) : List Char → Option ℕ
  | [] => none
  | a :: rest =>
      match lastIdxOfChar c rest with
      | some i => some (i + 1)
      | none => if a = c then some 0 else none

/-- Split a path string into the directory part (trailing slash kept)
and the final component, as `pathlib` does. -/
def splitDirName (path : String) : String × String :=
  match lastIdxOfChar '/' path.toList with
  | some i => ((path.toList.take (i + 1)).asString, (path.toList.drop (i + 1)).asString)
  | none => ("", path)

/-- `pathlib`'s stem/suffix split of a final path component: the suffix
starts at the last dot, provided that dot is neither the first nor the
last character of the name; otherwise the suffix is empty. -/
def nameStemSuffix (name : String) : String × String :=
  match lastIdxOfChar '.' name.toList with
  | some i =>
      if 0 < i ∧ i + 1 < name.toList.length then
        ((name.toList.take i).asString, (name.toList.drop i).asString)
      else (name, "")
  | none => (name, "")

/-- `Path(path).stem`. -/
def pathStem (path : String) : String :=
  (nameStemSuffix (splitDirName path).2).1

/-- `Path(path).with_stem(stem)`: same directory, new stem, same
suffix. -/
def pathWithStem (path : String) (stem : String) : String :=
  (splitDirName path).1 ++ stem ++ (nameStemSuffix (splitDirName path).2).2

/-- The batch loop of `JWImageSaveToPath.execute`: save each
image/path pair in order, stopping at the first raised error (earlier
files stay written). -/
def runSaves : List (NTensor × String) → List SavedFile × Option PyError
  | [] => ([], none)
  | (img, p) :: rest =>
      match save_image img p with
      | .error e => ([], some e)
      | .ok f =>
          match runSaves rest with
          | (fs, e) => (f :: fs, e)

/-- `JWImageSaveToPath.execute`: a batch of exactly 1 image is saved at
the base path unchanged; otherwise image `i` is saved at
`path.with_stem(f"{path.stem}-{i}")`. Returns the written files in
order and the first error, if any. The `path.parent.mkdir(exist_ok=True)`
side effect creates only the immediate parent directory and writes no
image file; it is not modelled. -/
def JWImageSaveToPath_execute (image : NTensor) (path : String) :
    List SavedFile × Option PyError :=
  if image.shape.headD 0 = 1 then
    match save_image (image.get 0) path with
    | .error e => ([], some e)
    | .ok f => ([f], none)
  else
    runSaves ((List.range (image.shape.headD 0)).map (fun i =>
      (image.get i, pathWithStem path (pathStem path ++ "-" ++ toString i))))

/-- Modelled from the spec: the result of the external decoder
`Image.open(path).convert(mode)` — a decoded raster of height `H`,
width `W`, `C` channels, with 8-bit pixel values `pix y x ch` in
[0, 255]. Decode failures propagate to the caller and are outside this
model. -/
structure DecodedImage where
  H : ℕ
  W : ℕ
  C : ℕ
  pix : ℕ → ℕ → ℕ → ℕ

/-- `load_image`: `np.array(img).astype(np.float32) / 255.0` then
`unsqueeze(0)` — a rank-4 tensor of shape `(1, H, W, C)` whose values
are the decoded pixels divided by 255. -/
def load_image (d : DecodedImage) : NTensor :=
  ⟨[1, d.H, d.W, d.C],
   fun idx => (d.pix (idx.getD 1 0) (idx.getD 2 0) (idx.getD 3 0) : ℚ) / 255⟩

/-- `JWImageLoadRGBA.execute`: load in RGBA mode, then
`color = img[:, :, :, 0:3]` (shape `(1, H, W, min C 3)`),
`mask = img[0, :, :, 3]` (shape `(H, W)` — the leading index removes
the batch dimension), `mask = 1 - mask`. -/
def JWImageLoadRGBA_execute (d : DecodedImage) : NTensor × NTensor :=
  let img := load_image d
  let color : NTensor := ⟨[1, d.H, d.W, min d.C 3], fun idx => img.val idx⟩
  let mask0 : NTensor :=
    ⟨[d.H, d.W], fun idx => img.val [0, idx.getD 0 0, idx.getD 1 0, 3]⟩
  let mask : NTensor := ⟨mask0.shape, fun idx => 1 - mask0.val idx⟩
  (color, mask)

/-- The abstracted resampling kernel for rank-polymorphic tensors, used
by the mask-resize node. -/
def NResample : Type :=
  InterpolationMode → NTensor → ℕ → ℕ → List ℕ → ℚ

/-- Modelled from the spec: `torchvision.transforms.Resize((h, w), ...)`
on a tensor of any rank ≥ 2 — the trailing two (spatial) dimensions
become exactly `(height, width)`, the leading dimensions survive, and
values come from the abstracted kernel. -/
def NResize (resample : NResample) (mode : InterpolationMode)
    (th tw : ℕ) (t : NTensor) : NTensor :=
  ⟨t.shape.take (t.shape.length - 2) ++ [th, tw],
   fun idx => resample mode t th tw idx⟩

/-- `JWMaskResize.execute`: the same mode normalization and lookup as
the image resize nodes, then `mask.unsqueeze(0)`, resize to
`(height, width)`, and `mask[0]`. -/
def JWMaskResize_execute (resample : NResample) (mask : NTensor)
    (width height : ℕ) (interpolation_mode : String) :
    Except String NTensor :=
  match interpolationModeLookup (normalizeMode interpolation_mode) with
  | none => .error ("AttributeError: " ++ normalizeMode interpolation_mode)
  | some k =>
      .ok ((NResize resample k height width mask.unsqueeze0).get 0)

/-- Python `round` of an exact natural number is that number. -/
theorem pythonRound_natCast (n : ℕ) : pythonRound (n : ℚ) = n := by
  unfold pythonRound
  rw [Int.floor_natCast]
  norm_num

/-- A rank-3 tensor whose trailing dimension is 3 passes both of
`save_image`'s checks and is written at the requested path. -/
theorem save_image_eq_ok (img : NTensor) (p : String)
    (h3 : img.shape.length = 3) (hc : img.shape.getD 2 0 = 3) :
    save_image img p = .ok ⟨p, ⟨(tensorPermute201 img).shape,
      fun idx => clamp01 ((tensorPermute201 img).val idx)⟩⟩ := by
  obtain ⟨a, b, c, hl⟩ := List.length_eq_three.mp h3
  rw [hl] at hc
  simp [List.getD] at hc
  simp [save_image, tensorPermute201, hl, hc]

/-- If every image in the list passes `save_image`'s checks, the batch
loop raises nothing and writes exactly the requested paths in order. -/
theorem runSaves_all_ok (l : List (NTensor × String))
    (h : ∀ x ∈ l, x.1.shape.length = 3 ∧ x.1.shape.getD 2 0 = 3) :
    (runSaves l).2 = none ∧
    (runSaves l).1.map SavedFile.path = l.map Prod.snd := by
  induction l with
  | nil => simp [runSaves]
  | cons a rest ih =>
      obtain ⟨img, p⟩ := a
      obtain ⟨h1, h2⟩ := h (img, p) (List.mem_cons_self _ _)
      have hsave := save_image_eq_ok img p h1 h2
      have ihr := ih (fun x hx => h x (List.mem_cons_of_mem _ hx))
      simp [runSaves, hsave, ihr.1, ihr.2]

/-- C1: for every 4-D tensor `T`, `native_torch_to_comfyui
(comfyui_to_native_torch T) = T` and `comfyui_to_native_torch
(native_torch_to_comfyui T) = T`: the NHWC→NCHW and NCHW→NHWC
converters are mutual inverses, preserving shape and values exactly. -/
theorem C1_converters_mutual_inverses (T : Tensor4) :
    native_torch_to_comfyui (comfyui_to_native_torch T) = T ∧
    comfyui_to_native_torch (native_torch_to_comfyui T) = T := by
  constructor <;> rfl

/-- C3: `save_image` on a single (rank-3, shape `(H, W, C)`) image with
`C ≠ 3` fails with a `ValueError` whose message reports the actual
channel count `C`, returning no written file (the error precedes the
encode/write step). -/
theorem C3_save_image_bad_channel_count (img : NTensor) (h w c : ℕ)
    (path : String) (hs : img.shape = [h, w, c]) (hc : c ≠ 3) :
    save_image img path = .error (.valueError
      ("image must have 3 channels, but got " ++ toString c ++ " channels")) := by
  simp [save_image, tensorPermute201, hs, hc]

/-- Witness for C3: a 2×2 image with 4 channels is rejected with a
`ValueError` naming the 4 channels found. -/
theorem C3_save_image_bad_channel_count_witness :
    save_image ⟨[2, 2, 4], fun _ => 0⟩ "out.png" = .error (.valueError
      "image must have 3 channels, but got 4 channels") := by
  have h := C3_save_image_bad_channel_count ⟨[2, 2, 4], fun _ => 0⟩ 2 2 4
    "out.png" rfl (by decide)
  rw [h, show ("image must have 3 channels, but got " ++ toString (4 : ℕ)
    ++ " channels") = "image must have 3 channels, but got 4 channels" by decide]

/-- C4 [amendable general form proved as stated]: saving a batch of
`N ≥ 2` images (each H×W with 3 channels) writes exactly the files
obtained by inserting `-{i}` before the extension of the base path, in
batch order, with no error; in particular a batch of 3 saved to
`out.png` writes exactly `out-0.png`, `out-1.png`, `out-2.png`. -/
theorem C4_batch_save_numbered_files (image : NTensor) (n h w : ℕ)
    (path : String) (hs : image.shape = [n, h, w, 3]) (hn : 2 ≤ n) :
    (JWImageSaveToPath_execute image path).2 = none ∧
    (JWImageSaveToPath_execute image path).1.map SavedFile.path
      = (List.range n).map
          (fun i => pathWithStem path (pathStem path ++ "-" ++ toString i)) := by
  have hhead : image.shape.headD 0 = n := by rw [hs]; rfl
  have hne : ¬ image.shape.headD 0 = 1 := by rw [hhead]; omega
  unfold JWImageSaveToPath_execute
  rw [if_neg hne, hhead]
  have hall : ∀ x ∈ (List.range n).map (fun i =>
      (image.get i, pathWithStem path (pathStem path ++ "-" ++ toString i))),
      x.1.shape.length = 3 ∧ x.1.shape.getD 2 0 = 3 := by
    intro x hx
    simp only [List.mem_map] at hx
    obtain ⟨i, _, rfl⟩ := hx
    simp [NTensor.get, hs]
  have hrun := runSaves_all_ok _ hall
  refine ⟨hrun.1, ?_⟩
  rw [hrun.2, List.map_map]
  rfl

/-- Witness for C4: a batch of three 1×1 RGB images saved to `out.png`
writes exactly `out-0.png`, `out-1.png`, `out-2.png` and no error. -/
theorem C4_batch_save_numbered_files_witness :
    (JWImageSaveToPath_execute ⟨[3, 1, 1, 3], fun _ => 0⟩ "out.png").2 = none ∧
    (JWImageSaveToPath_execute ⟨[3, 1, 1, 3], fun _ => 0⟩ "out.png").1.map
      SavedFile.path = ["out-0.png", "out-1.png", "out-2.png"] := by
  have h := C4_batch_save_numbered_files ⟨[3, 1, 1, 3], fun _ => 0⟩ 3 1 1
    "out.png" rfl (by decide)
  exact ⟨h.1, h.2.trans (by decide)⟩

/-- C9: a batch of exactly one image is written as a single file at the
base destination path itself — no `-0` suffix is inserted. -/
theorem C9_single_image_base_path (image : NTensor) (h w : ℕ)
    (path : String) (hs : image.shape = [1, h, w, 3]) :
    (JWImageSaveToPath_execute image path).2 = none ∧
    (JWImageSaveToPath_execute image path).1.map SavedFile.path = [path] := by
  have hhead : image.shape.headD 0 = 1 := by rw [hs]; rfl
  have hget3 : (image.get 0).shape.length = 3 ∧ (image.get 0).shape.getD 2 0 = 3 := by
    simp [NTensor.get, hs]
  have hsave := save_image_eq_ok (image.get 0) path hget3.1 hget3.2
  unfold JWImageSaveToPath_execute
  rw [if_pos hhead, hsave]
  simp

/-- Witness for C9: a batch of one 1×1 RGB image saved to `img.png`
writes exactly the file `img.png`. -/
theorem C9_single_image_base_path_witness :
    (JWImageSaveToPath_execute ⟨[1, 1, 1, 3], fun _ => 0⟩ "img.png").2 = none ∧
    (JWImageSaveToPath_execute ⟨[1, 1, 1, 3], fun _ => 0⟩ "img.png").1.map
      SavedFile.path = ["img.png"] :=
  C9_single_image_base_path ⟨[1, 1, 1, 3], fun _ => 0⟩ 1 1 "img.png" rfl

/-- Counterexample to C10 as stated: on a 0-dimensional tensor (rank
0 ≠ 3) `save_image` raises `IndexError` — the f-string's `img.shape[0]`
fails on the empty shape tuple before any `ValueError` exists — so not
every non-rank-3 tensor produces a `ValueError`. -/
theorem C10_counterexample :
    save_image ⟨[], fun _ => 0⟩ "image.png"
      = .error (.indexError "tuple index out of range") ∧
    isValueError (save_image ⟨[], fun _ => 0⟩ "image.png") = false :=
  ⟨rfl, rfl⟩

/-- C10 [amended]: for every tensor of rank at least 1 and not exactly
3, `save_image` raises a `ValueError` before any permutation, channel
check or write, whose message reports the tensor's first dimension as
the number of images; a rank-0 tensor instead raises `IndexError` while
the message is being formatted. -/
theorem C10_rank_check_first (img : NTensor) (path : String) (s0 : ℕ)
    (rest : List ℕ) (hs : img.shape = s0 :: rest)
    (hlen : img.shape.length ≠ 3) :
    save_image img path = .error (.valueError
      ("can\x27t take image batch as input, got " ++ toString s0 ++ " images")) := by
  unfold save_image
  rw [if_neg hlen, hs]

/-- Witness for C10 [amended]: a rank-4 batch tensor with first
dimension 2 is rejected with a `ValueError` reporting 2 images. -/
theorem C10_rank_check_first_witness :
    save_image ⟨[2, 1, 1, 3], fun _ => 0⟩ "image.png" = .error (.valueError
      "can\x27t take image batch as input, got 2 images") := by
  have h := C10_rank_check_first ⟨[2, 1, 1, 3], fun _ => 0⟩ "image.png" 2
    [1, 1, 3] rfl (by decide)
  rw [h, show ("can\x27t take image batch as input, got " ++ toString (2 : ℕ)
    ++ " images") = "can\x27t take image batch as input, got 2 images" by decide]

/-- C5: the mask returned by the RGBA load node is, at every pixel,
1 minus the alpha (4th channel of the first batch element) divided by
255; alpha 255 gives mask 0 and alpha 0 gives mask 1. -/
theorem C5_rgba_mask_inverted_alpha (d : DecodedImage) (y x : ℕ) :
    (JWImageLoadRGBA_execute d).2.val [y, x] = 1 - (d.pix y x 3 : ℚ) / 255 ∧
    (d.pix y x 3 = 255 → (JWImageLoadRGBA_execute d).2.val [y, x] = 0) ∧
    (d.pix y x 3 = 0 → (JWImageLoadRGBA_execute d).2.val [y, x] = 1) := by
  refine ⟨rfl, ?_, ?_⟩ <;> intro ha <;>
    simp [JWImageLoadRGBA_execute, load_image, ha]

/-- Witness for C5: with alpha uniformly 255 the mask value is 0, and
with alpha uniformly 0 it is 1. -/
theorem C5_rgba_mask_inverted_alpha_witness :
    (JWImageLoadRGBA_execute ⟨2, 2, 4, fun _ _ _ => 255⟩).2.val [0, 0] = 0 ∧
    (JWImageLoadRGBA_execute ⟨2, 2, 4, fun _ _ _ => 0⟩).2.val [0, 0] = 1 :=
  ⟨(C5_rgba_mask_inverted_alpha ⟨2, 2, 4, fun _ _ _ => 255⟩ 0 0).2.1 rfl,
   (C5_rgba_mask_inverted_alpha ⟨2, 2, 4, fun _ _ _ => 0⟩ 0 0).2.2 rfl⟩

/-- Counterexample to C6 as stated: the mask returned by the RGBA load
node for a 5×7 RGBA image has shape `[5, 7]` — rank 2, not the claimed
rank-3 `(batch, height, width)`. -/
theorem C6_counterexample :
    (JWImageLoadRGBA_execute ⟨5, 7, 4, fun _ _ _ => 0⟩).2.shape = [5, 7] ∧
    ¬ (JWImageLoadRGBA_execute ⟨5, 7, 4, fun _ _ _ => 0⟩).2.shape.length = 3 := by
  constructor <;> decide

/-- C6 [amended]: the mask returned by the RGBA load node is
2-dimensional with shape `(H, W)` — indexing the first batch element
(`img[0, :, :, 3]`) removes the batch dimension, so no batch axis
remains. -/
theorem C6_rgba_mask_shape (d : DecodedImage) :
    (JWImageLoadRGBA_execute d).2.shape = [d.H, d.W] ∧
    (JWImageLoadRGBA_execute d).2.shape.length = 2 :=
  ⟨rfl, rfl⟩

/-- C2: the by-longer-side node computes `new_h = size` and
`new_w = round(W * size / H)` when `H ≥ W`, and `new_w = size`,
`new_h = round(H * size / W)` otherwise, and passes the pair to the
resize primitive as `(new_w, new_h)`, so the output spatial shape is
height `new_w`, width `new_h` — swapped relative to the fixed-resize
node, which passes `(height, width)` and yields exactly that spatial
shape. -/
theorem C2_resize_by_longer_side_dims (resample : Resample)
    (image : Tensor4) (size : ℕ) (s : String) (k : InterpolationMode)
    (hm : interpolationModeLookup (normalizeMode s) = some k) :
    (image.d2 ≤ image.d1 →
      (JWImageResizeByLongerSide_execute resample image size s).map Tensor4.dims
        = .ok (image.d0,
            (pythonRound ((image.d2 : ℚ) * (size : ℚ) / (image.d1 : ℚ))).toNat,
            size, image.d3)) ∧
    (image.d1 < image.d2 →
      (JWImageResizeByLongerSide_execute resample image size s).map Tensor4.dims
        = .ok (image.d0, size,
            (pythonRound ((image.d1 : ℚ) * (size : ℚ) / (image.d2 : ℚ))).toNat,
            image.d3)) ∧
    (∀ ww hh : ℕ,
      (JWImageResize_execute resample image ww hh s).map Tensor4.dims
        = .ok (image.d0, hh, ww, image.d3)) := by
  refine ⟨?_, ?_, ?_⟩
  · intro hw
    simp [JWImageResizeByLongerSide_execute, hm, Resize, comfyui_to_native_torch,
      native_torch_to_comfyui, Tensor4.dims, Except.map, hw]
  · intro hw
    have hnot : ¬ image.d2 ≤ image.d1 := by omega
    simp [JWImageResizeByLongerSide_execute, hm, Resize, comfyui_to_native_torch,
      native_torch_to_comfyui, Tensor4.dims, Except.map, hnot]
  · intro ww hh
    simp [JWImageResize_execute, hm, Resize, comfyui_to_native_torch,
      native_torch_to_comfyui, Tensor4.dims, Except.map]

/-- Witness for C2: a 4×2 image (H ≥ W) resized by longer side to 6
yields spatial shape `(3, 6)` — height `round(2·6/4) = 3`, width 6. -/
theorem C2_resize_by_longer_side_dims_witness :
    interpolationModeLookup (normalizeMode "bilinear")
      = some InterpolationMode.BILINEAR ∧
    (JWImageResizeByLongerSide_execute (fun _ _ _ _ _ _ _ _ => 0)
      ⟨1, 4, 2, 3, fun _ _ _ _ => 0⟩ 6 "bilinear").map Tensor4.dims
      = .ok (1, 3, 6, 3) := by
  have h := (C2_resize_by_longer_side_dims (fun _ _ _ _ _ _ _ _ => 0)
    ⟨1, 4, 2, 3, fun _ _ _ _ => 0⟩ 6 "bilinear" .BILINEAR (by decide)).1
    (by decide)
  refine ⟨by decide, h.trans ?_⟩
  have hr : pythonRound (((2 : ℕ) : ℚ) * ((6 : ℕ) : ℚ) / ((4 : ℕ) : ℚ)) = 3 := by
    unfold pythonRound
    norm_num
  rw [hr]
  rfl

/-- C7: every resize node (fixed, mask, square, by-factor, by-shorter,
by-longer) normalizes the interpolation-mode string by uppercasing and
replacing spaces with underscores and looks it up in the closed kernel
enumeration {BICUBIC, BILINEAR, NEAREST, NEAREST_EXACT}; a string whose
normalized form is not a member makes the node fail with an
`AttributeError` naming that form — no silent default kernel. -/
theorem C7_unknown_interpolation_mode_fails (s : String)
    (hm : interpolationModeLookup (normalizeMode s) = none) :
    (∀ u : String, (interpolationModeLookup u).isSome ↔
      u = "BICUBIC" ∨ u = "BILINEAR" ∨ u = "NEAREST" ∨ u = "NEAREST_EXACT") ∧
    ∀ (resample : Resample) (nresample : NResample) (image : Tensor4)
      (mask : NTensor) (w h sz : ℕ) (f : ℚ),
      JWImageResize_execute resample image w h s
          = .error ("AttributeError: " ++ normalizeMode s) ∧
      JWMaskResize_execute nresample mask w h s
          = .error ("AttributeError: " ++ normalizeMode s) ∧
      JWImageResizeToSquare_execute resample image sz s
          = .error ("AttributeError: " ++ normalizeMode s) ∧
      JWImageResizeByFactor_execute resample image f s
          = .error ("AttributeError: " ++ normalizeMode s) ∧
      JWImageResizeByShorterSide_execute resample image sz s
          = .error ("AttributeError: " ++ normalizeMode s) ∧
      JWImageResizeByLongerSide_execute resample image sz s
          = .error ("AttributeError: " ++ normalizeMode s) := by
  constructor
  · intro u
    unfold interpolationModeLookup
    split_ifs <;> simp_all
  · intro resample nresample image mask w h sz f
    refine ⟨?_, ?_, ?_, ?_, ?_, ?_⟩ <;>
      simp [JWImageResize_execute, JWMaskResize_execute,
        JWImageResizeToSquare_execute, JWImageResizeByFactor_execute,
        JWImageResizeByShorterSide_execute, JWImageResizeByLongerSide_execute,
        hm]

/-- Witness for C7: the string `"box"` normalizes to `"BOX"`, which is
not in the kernel enumeration, and the fixed-resize and mask-resize
nodes reject it with `AttributeError: BOX`. -/
theorem C7_unknown_interpolation_mode_fails_witness :
    interpolationModeLookup (normalizeMode "box") = none ∧
    JWImageResize_execute (fun _ _ _ _ _ _ _ _ => 0)
      ⟨1, 1, 1, 3, fun _ _ _ _ => 0⟩ 2 2 "box"
      = .error "AttributeError: BOX" ∧
    JWMaskResize_execute (fun _ _ _ _ _ => 0) ⟨[1, 1], fun _ => 0⟩ 2 2 "box"
      = .error "AttributeError: BOX" := by
  have h := (C7_unknown_interpolation_mode_fails "box" (by decide)).2
    (fun _ _ _ _ _ _ _ _ => 0) (fun _ _ _ _ _ => 0)
    ⟨1, 1, 1, 3, fun _ _ _ _ => 0⟩ ⟨[1, 1], fun _ => 0⟩ 2 2 2 1
  have hstr : ("AttributeError: " ++ normalizeMode "box")
      = "AttributeError: BOX" := by decide
  rw [hstr] at h
  exact ⟨by decide, h.1, h.2.1⟩

/-- C8: the by-factor node targets height `round(H * factor)` and width
`round(W * factor)`; with `factor = 1` the output dimensions all equal
the input's. -/
theorem C8_resize_by_factor_dims (resample : Resample) (image : Tensor4)
    (factor : ℚ) (s : String) (k : InterpolationMode)
    (hm : interpolationModeLookup (normalizeMode s) = some k) :
    (JWImageResizeByFactor_execute resample image factor s).map Tensor4.dims
      = .ok (image.d0, (pythonRound ((image.d1 : ℚ) * factor)).toNat,
          (pythonRound ((image.d2 : ℚ) * factor)).toNat, image.d3) ∧
    (factor = 1 →
      (JWImageResizeByFactor_execute resample image factor s).map Tensor4.dims
        = .ok image.dims) := by
  constructor
  · simp [JWImageResizeByFactor_execute, hm, Resize, comfyui_to_native_torch,
      native_torch_to_comfyui, Tensor4.dims, Except.map]
  · intro hf
    subst hf
    simp [JWImageResizeByFactor_execute, hm, Resize, comfyui_to_native_torch,
      native_torch_to_comfyui, Tensor4.dims, Except.map, pythonRound_natCast]

/-- Witness for C8: a (2, 3, 5, 3) image resized by factor 1 keeps the
exact shape (2, 3, 5, 3). -/
theorem C8_resize_by_factor_dims_witness :
    interpolationModeLookup (normalizeMode "nearest exact")
      = some InterpolationMode.NEAREST_EXACT ∧
    (JWImageResizeByFactor_execute (fun _ _ _ _ _ _ _ _ => 0)
      ⟨2, 3, 5, 3, fun _ _ _ _ => 0⟩ 1 "nearest exact").map Tensor4.dims
      = .ok (2, 3, 5, 3) := by
  have h := (C8_resize_by_factor_dims (fun _ _ _ _ _ _ _ _ => 0)
    ⟨2, 3, 5, 3, fun _ _ _ _ => 0⟩ 1 "nearest exact" .NEAREST_EXACT
    (by decide)).2 rfl
  exact ⟨by decide, h⟩

end ComfyUIImageOps
